import Mathlib

/-!
Shallow embedding of the sake-hack backend list-query pipeline.

The embedding follows the Go source:
- `internal/apperror/errors.go` — error taxonomy (`AppError`, `ValidationError`);
- `internal/features/sake/domain/entity` — domain records;
- `internal/features/sake/infrastructure/repository` — the repository adapter
  (`List`, `toSakeEntity`, `extractCoordinates`, `convertNumericToFloat32`);
- `internal/features/sake/application/usecase/list_sakes.go` — the use case `Execute`;
- the presentation handler `ListSakes`, `validateListSakesParams`,
  `toListSakesResponse`, `toSakeResponse`, `handleError`;
- `db/queries/sakes.sql` — the `ListSakes` / `CountSakes` query semantics.

External collaborators (pgx, the sqlc-generated store layer, go-playground/validator)
are modelled abstractly: store lookups are arbitrary functions returning either a
value or a store-level error, numerics are exact rationals in place of IEEE floats,
and the validator tags `min=0`, `min=1,max=100` are modelled by the integer
comparisons they document.  Go's `int32`/`int64` are modelled as `Int`: the code
under study only compares and copies these values, it never does arithmetic that
could overflow.  The effect "the handler invoked the use case" is made explicit by
returning the list of inputs passed to the use case alongside the HTTP response.
-/

namespace SakeHack

/-- Store-level failure of a single query, as seen through pgx: either the
`pgx.ErrNoRows` sentinel ("no such row") or any other driver/connectivity error. -/
inductive StoreErr where
  | noRows
  | otherErr (msg : String)
deriving DecidableEq, Repr

/-- `apperror.AppError`: code, message, HTTP status, and the wrapped cause
(`Err` field, used by `DatabaseError` to carry the underlying store error). -/
structure AppError where
  code : String
  message : String
  status : Int
  err : Option StoreErr
deriving DecidableEq, Repr

/-- `apperror.NotFoundError`: code NOT_FOUND, HTTP 404, no wrapped cause. -/
def NotFoundError (message : String) : AppError :=
  { code := "NOT_FOUND", message := message, status := 404, err := none }

/-- `apperror.DatabaseError`: code DATABASE_ERROR, HTTP 500, wrapping the cause. -/
def DatabaseError (message : String) (err : StoreErr) : AppError :=
  { code := "DATABASE_ERROR", message := message, status := 500, err := some err }

/-- `apperror.ValidationError`: an embedded `AppError` plus field→message entries.
Go stores the fields in a map keyed by field name; since every `AddField` call in
this code uses a distinct key, the map is modelled as the association list of
entries in insertion order. -/
structure ValidationError where
  appError : AppError
  fields : List (String × String)
deriving DecidableEq, Repr

/-- `apperror.NewValidationError`: code VALIDATION_ERROR, HTTP 400, no fields yet. -/
def NewValidationError (message : String) : ValidationError :=
  { appError := { code := "VALIDATION_ERROR", message := message, status := 400, err := none },
    fields := [] }

/-- `ValidationError.AddField` — adds one field error. -/
def ValidationError.AddField (e : ValidationError) (field message : String) : ValidationError :=
  { e with fields := e.fields ++ [(field, message)] }

/-- `ValidationError.HasErrors` — `len(e.Fields) > 0`. -/
def ValidationError.HasErrors (e : ValidationError) : Bool :=
  e.fields.length > 0

/-- A Go `error` value as it flows through this pipeline: a `*ValidationError`,
a `*AppError`, or any other (unclassified) error. -/
inductive GoError where
  | app (e : AppError)
  | validation (v : ValidationError)
  | generic (msg : String)
deriving DecidableEq, Repr

/-! ### Domain entities (`domain/entity`) -/

/-- `entity.SakeType`. -/
structure SakeType where
  id : Int
  name : String
deriving DecidableEq, Repr

/-- `entity.Brewery`.  `Latitude`/`Longitude` are `*float64`, modelled as
optional exact rationals. -/
structure Brewery where
  id : Int
  name : String
  originCountry : String
  originRegion : Option String
  latitude : Option ℚ
  longitude : Option ℚ
deriving DecidableEq, Repr

/-- `entity.DrinkStyle`. -/
structure DrinkStyle where
  id : Int
  name : String
  description : Option String
deriving DecidableEq, Repr

/-- `entity.Sake`.  `ABV` is a `float32`, modelled as an exact rational;
`time.Time` stamps are modelled as integers (their ordering is all that matters). -/
structure Sake where
  id : Int
  type : SakeType
  brewery : Brewery
  name : String
  abv : ℚ
  tasteNotes : String
  memo : Option String
  drinkStyles : List DrinkStyle
  createdAt : Int
  updatedAt : Int
deriving DecidableEq, Repr

/-- `entity.Pagination`. -/
structure Pagination where
  total : Int
  offset : Int
  limit : Int
deriving DecidableEq, Repr

/-! ### pg / sqlc models (the store layer, modelled from pgx and the sqlc rows) -/

/-- A stored PostGIS geometry value, opaque to the code under study
(`interface{}` in Go): absent, a point, or raw bytes. -/
inductive PgGeometry where
  | null
  | point (lat lon : ℚ)
  | raw (wkb : List Nat)
deriving DecidableEq, Repr

/-- `pgtype.Numeric`: an exact decimal `int × 10^exp` plus a validity flag.
IEEE rounding is not modelled — values are kept exact, which is faithful to
2-fractional-digit ABV values up to the claimed 2-decimal-place precision. -/
structure PgNumeric where
  int : Int
  exp : Int
  valid : Bool
deriving DecidableEq, Repr

/-- `pgtype.Float8` as returned by `Numeric.Float64Value`. -/
structure PgFloat8 where
  float64 : ℚ
  valid : Bool
deriving DecidableEq, Repr

/-- Modelled from pgx: `Numeric.Float64Value` yields the numeric's value and
validity (an invalid numeric yields an invalid `Float8`). -/
def PgNumeric.Float64Value (n : PgNumeric) : PgFloat8 :=
  if n.valid then
    { float64 :=
        if 0 ≤ n.exp then (n.int : ℚ) * (10 : ℚ) ^ n.exp.toNat
        else (n.int : ℚ) / (10 : ℚ) ^ (-n.exp).toNat,
      valid := true }
  else { float64 := 0, valid := false }

/-- `sqlc.Sake` — one row of the `sakes` table as fetched by `ListSakes`. -/
structure SqlcSake where
  id : Int
  typeID : Int
  breweryID : Int
  name : String
  abv : PgNumeric
  tasteNotes : String
  memo : Option String
  createdAt : Int
  updatedAt : Int
deriving DecidableEq, Repr

/-- `sqlc.SakeType` — a row of `sake_types` as fetched by `GetSakeType`. -/
structure SqlcSakeType where
  id : Int
  name : String
  createdAt : Int
  updatedAt : Int
deriving DecidableEq, Repr

/-- `sqlc.Brewery` — a row of `breweries` as fetched by `GetBrewery`. -/
structure SqlcBrewery where
  id : Int
  name : String
  originCountry : String
  originRegion : Option String
  position : PgGeometry
  createdAt : Int
  updatedAt : Int
deriving DecidableEq, Repr

/-- `sqlc.DrinkStyle` — a row of `drink_styles` as fetched by
`GetDrinkStylesBySakeID`. -/
structure SqlcDrinkStyle where
  id : Int
  name : String
  description : Option String
  createdAt : Int
  updatedAt : Int
deriving DecidableEq, Repr

/-- `sqlc.CountSakesParams`. -/
structure CountSakesParams where
  typeID : Option Int
  breweryID : Option Int
deriving DecidableEq, Repr

/-- `sqlc.ListSakesParams`. -/
structure SqlcListSakesParams where
  limit : Int
  offset : Int
  typeID : Option Int
  breweryID : Option Int
deriving DecidableEq, Repr

/-- The sqlc query interface consumed by the repository adapter, abstracted as
arbitrary functions into `Except StoreErr`: the adapter's behaviour is proved
for every possible store behaviour. -/
structure Queries where
  countSakes : CountSakesParams → Except StoreErr Int
  listSakes : SqlcListSakesParams → Except StoreErr (List SqlcSake)
  getSakeType : Int → Except StoreErr SqlcSakeType
  getBrewery : Int → Except StoreErr SqlcBrewery
  getDrinkStylesBySakeID : Int → Except StoreErr (List SqlcDrinkStyle)

/-! ### Repository adapter -/

/-- `repository.ListSakesFilter`. -/
structure ListSakesFilter where
  typeID : Option Int
  breweryID : Option Int
  offset : Int
  limit : Int
deriving DecidableEq, Repr

/-- `extractCoordinates` — the stubbed GEOMETRY decoder: always `(nil, nil)`. -/
def extractCoordinates (geomData : PgGeometry) : Option ℚ × Option ℚ :=
  (none, none)

/-- `convertNumericToFloat32`: substitute `0.0` when the conversion fails or the
value is invalid, else the converted value. -/
def convertNumericToFloat32 (n : PgNumeric) : ℚ :=
  let f64 := n.Float64Value
  if !f64.valid then 0 else f64.float64

/-- `sakeRepositoryImpl.toSakeEntity`: hydrate one `sakes` row by a SakeType
lookup, a Brewery lookup and a DrinkStyles lookup, translating `pgx.ErrNoRows`
on the two point lookups to `NotFoundError` and every other failure to
`DatabaseError` wrapping the cause. -/
def toSakeEntity (q : Queries) (row : SqlcSake) : Except GoError Sake :=
  match q.getSakeType row.typeID with
  | .error .noRows => .error (.app (NotFoundError "酒の種類が見つかりません"))
  | .error e => .error (.app (DatabaseError "酒の種類取得に失敗しました" e))
  | .ok sakeType =>
    match q.getBrewery row.breweryID with
    | .error .noRows => .error (.app (NotFoundError "酒造が見つかりません"))
    | .error e => .error (.app (DatabaseError "酒造取得に失敗しました" e))
    | .ok brewery =>
      match q.getDrinkStylesBySakeID row.id with
      | .error e => .error (.app (DatabaseError "飲み方取得に失敗しました" e))
      | .ok drinkStyleRows =>
        let drinkStyles := drinkStyleRows.map fun ds =>
          ({ id := ds.id, name := ds.name, description := ds.description } : DrinkStyle)
        let coords := extractCoordinates brewery.position
        .ok
          { id := row.id,
            type := { id := sakeType.id, name := sakeType.name },
            brewery :=
              { id := brewery.id, name := brewery.name,
                originCountry := brewery.originCountry,
                originRegion := brewery.originRegion,
                latitude := coords.1, longitude := coords.2 },
            name := row.name,
            abv := convertNumericToFloat32 row.abv,
            tasteNotes := row.tasteNotes,
            memo := row.memo,
            drinkStyles := drinkStyles,
            createdAt := row.createdAt,
            updatedAt := row.updatedAt }

/-- The entity-conversion loop of `sakeRepositoryImpl.List`: convert rows in
order, aborting on the first row whose hydration fails. -/
def hydrateRows (q : Queries) : List SqlcSake → Except GoError (List Sake)
  | [] => .ok []
  | row :: rest =>
    match toSakeEntity q row with
    | .error e => .error e
    | .ok sake =>
      match hydrateRows q rest with
      | .error e => .error e
      | .ok sakes => .ok (sake :: sakes)

/-- `sakeRepositoryImpl.List`: count query, page query, per-row hydration,
then the `Pagination` assembled from the count result and the filter. -/
def sakeRepositoryList (q : Queries) (filter : ListSakesFilter) :
    Except GoError (List Sake × Pagination) :=
  match q.countSakes { typeID := filter.typeID, breweryID := filter.breweryID } with
  | .error err => .error (.app (DatabaseError "酒の件数取得に失敗しました" err))
  | .ok total =>
    match q.listSakes
        { limit := filter.limit, offset := filter.offset,
          typeID := filter.typeID, breweryID := filter.breweryID } with
    | .error err => .error (.app (DatabaseError "酒一覧の取得に失敗しました" err))
    | .ok sakeRows =>
      match hydrateRows q sakeRows with
      | .error e => .error e
      | .ok sakes =>
        .ok (sakes, { total := total, offset := filter.offset, limit := filter.limit })

/-! ### Use case (`usecase.ListSakesUsecase`) -/

/-- `usecase.ListSakesInput`. -/
structure ListSakesInput where
  typeID : Option Int
  breweryID : Option Int
  offset : Int
  limit : Int
deriving DecidableEq, Repr

/-- `usecase.ListSakesOutput`. -/
structure ListSakesOutput where
  sakes : List Sake
  pagination : Pagination
deriving DecidableEq, Repr

/-- `ListSakesUsecase.Execute`: clamp a negative offset to 0 and an
out-of-range limit to 20, then delegate to the repository port (`repoList`,
the injected `SakeRepository.List`), passing errors through untouched. -/
def Execute (repoList : ListSakesFilter → Except GoError (List Sake × Pagination))
    (input : ListSakesInput) : Except GoError ListSakesOutput :=
  let input1 := if input.offset < 0 then { input with offset := 0 } else input
  let input2 := if input1.limit < 1 ∨ input1.limit > 100 then { input1 with limit := 20 } else input1
  match repoList
      { typeID := input2.typeID, breweryID := input2.breweryID,
        offset := input2.offset, limit := input2.limit } with
  | .error e => .error e
  | .ok (sakes, pagination) => .ok { sakes := sakes, pagination := pagination }

/-! ### Presentation layer (handler, validation, response mapping) -/

/-- `generated.ListSakesParams` — the bound HTTP query parameters, all optional
(`*int32` in Go). -/
structure ListSakesParams where
  typeId : Option Int
  breweryId : Option Int
  offset : Option Int
  limit : Option Int
deriving DecidableEq, Repr

/-- `generated.SakeType` (wire shape). -/
structure GeneratedSakeType where
  id : Int
  name : String
deriving DecidableEq, Repr

/-- `generated.Brewery` (wire shape). -/
structure GeneratedBrewery where
  id : Int
  name : String
  originCountry : String
  originRegion : Option String
  latitude : Option ℚ
  longitude : Option ℚ
deriving DecidableEq, Repr

/-- `generated.DrinkStyle` (wire shape). -/
structure GeneratedDrinkStyle where
  id : Int
  name : String
  description : Option String
deriving DecidableEq, Repr

/-- `generated.Sake` (wire shape). -/
structure GeneratedSake where
  id : Int
  type : GeneratedSakeType
  brewery : GeneratedBrewery
  name : String
  abv : ℚ
  tasteNotes : String
  memo : Option String
  drinkStyles : List GeneratedDrinkStyle
  createdAt : Int
  updatedAt : Int
deriving DecidableEq, Repr

/-- `generated.SakeListMeta`. -/
structure SakeListMeta where
  total : Int
  offset : Int
  limit : Int
deriving DecidableEq, Repr

/-- `generated.APIError`. -/
structure APIError where
  code : String
  message : String
deriving DecidableEq, Repr

/-- `generated.ListSakesResponse`. -/
structure ListSakesResponse where
  data : Option (List GeneratedSake)
  meta : Option SakeListMeta
  errors : Option (List APIError)
deriving DecidableEq, Repr

/-- `generated.ErrorResponse` — `data` is always rendered as null. -/
structure ErrorResponse where
  data : Option Unit
  errors : Option (List APIError)
deriving DecidableEq, Repr

/-- An HTTP response produced by the handler: `c.JSON(200, response)` on
success, `c.JSON(status, errorResponse)` on failure. -/
inductive HttpResponse where
  | okJson (body : ListSakesResponse)
  | errJson (status : Int) (body : ErrorResponse)
deriving DecidableEq, Repr

/-- Modelled from go-playground/validator: `validate.Var(v, "min=lo")` passes
iff `lo ≤ v`. -/
def validatorVarMin (v lo : Int) : Bool :=
  lo ≤ v

/-- Modelled from go-playground/validator: `validate.Var(v, "min=lo,max=hi")`
passes iff `lo ≤ v ∧ v ≤ hi`. -/
def validatorVarMinMax (v lo hi : Int) : Bool :=
  lo ≤ v && v ≤ hi

/-- `validateListSakesParams`: check each present parameter independently,
accumulating one field error per failed rule, and return the accumulated
`ValidationError` iff at least one rule failed. -/
def validateListSakesParams (params : ListSakesParams) : Option ValidationError :=
  let verr := NewValidationError "リクエストパラメータが不正です"
  let verr := match params.offset with
    | none => verr
    | some o =>
      if validatorVarMin o 0 then verr
      else verr.AddField "offset" "オフセットは0以上である必要があります"
  let verr := match params.limit with
    | none => verr
    | some l =>
      if validatorVarMinMax l 1 100 then verr
      else verr.AddField "limit" "取得件数は1以上100以下である必要があります"
  let verr := match params.typeId with
    | none => verr
    | some t =>
      if validatorVarMin t 1 then verr
      else verr.AddField "type_id" "酒の種類IDは1以上である必要があります"
  let verr := match params.breweryId with
    | none => verr
    | some b =>
      if validatorVarMin b 1 then verr
      else verr.AddField "brewery_id" "酒造IDは1以上である必要があります"
  if verr.HasErrors then some verr else none

/-- `toSakeResponse` — domain `Sake` to wire `generated.Sake`, field by field. -/
def toSakeResponse (sake : Sake) : GeneratedSake :=
  { id := sake.id,
    type := { id := sake.type.id, name := sake.type.name },
    brewery :=
      { id := sake.brewery.id, name := sake.brewery.name,
        originCountry := sake.brewery.originCountry,
        originRegion := sake.brewery.originRegion,
        latitude := sake.brewery.latitude,
        longitude := sake.brewery.longitude },
    name := sake.name,
    abv := sake.abv,
    tasteNotes := sake.tasteNotes,
    memo := sake.memo,
    drinkStyles := sake.drinkStyles.map fun ds =>
      { id := ds.id, name := ds.name, description := ds.description },
    createdAt := sake.createdAt,
    updatedAt := sake.updatedAt }

/-- `toListSakesResponse` — use-case output to wire response; the meta block is
copied field-by-field from the pagination. -/
def toListSakesResponse (output : ListSakesOutput) : ListSakesResponse :=
  { data := some (output.sakes.map toSakeResponse),
    meta := some
      { total := output.pagination.total,
        offset := output.pagination.offset,
        limit := output.pagination.limit },
    errors := none }

/-- `handleError`: a `*ValidationError` is rendered with one `APIError` per
field entry; a `*AppError` with a single `APIError`; anything else as a generic
500 internal error. -/
def handleError (err : GoError) : HttpResponse :=
  match err with
  | .validation valErr =>
    .errJson valErr.appError.status
      { data := none,
        errors := some (valErr.fields.map fun fm =>
          { code := valErr.appError.code, message := fm.1 ++ ": " ++ fm.2 }) }
  | .app appErr =>
    .errJson appErr.status
      { data := none, errors := some [{ code := appErr.code, message := appErr.message }] }
  | .generic _ =>
    .errJson 500
      { data := none,
        errors := some [{ code := "INTERNAL_ERROR", message := "内部エラーが発生しました" }] }

/-- `SakeServerImpl.ListSakes` — the HTTP handler: validate, apply wire-level
defaults (offset 0, limit 20), invoke the use case, map output or error to the
response.  The second component is the list of inputs passed to the use case,
making "the use case was (not) invoked" explicit. -/
def ListSakes (listSakesUsecase : ListSakesInput → Except GoError ListSakesOutput)
    (params : ListSakesParams) : HttpResponse × List ListSakesInput :=
  match validateListSakesParams params with
  | some verr => (handleError (.validation verr), [])
  | none =>
    let offset : Int := match params.offset with | some o => o | none => 0
    let limit : Int := match params.limit with | some l => l | none => 20
    let input : ListSakesInput :=
      { typeID := params.typeId, breweryID := params.breweryId, offset := offset, limit := limit }
    match listSakesUsecase input with
    | .error e => (handleError e, [input])
    | .ok output => (.okJson (toListSakesResponse output), [input])

/-! ### SQL query semantics (`db/queries/sakes.sql`)

The `ListSakes` and `CountSakes` statements are modelled over an explicit table
(a list of `sakes` rows).  Each statement's WHERE clause is translated
separately, mirroring the duplicated SQL text. -/

/-- WHERE clause of the `ListSakes` statement:
`(narg(type_id) IS NULL OR s.type_id = narg(type_id)) AND
(narg(brewery_id) IS NULL OR s.brewery_id = narg(brewery_id))`. -/
def listSakesWhere (typeID breweryID : Option Int) (s : SqlcSake) : Bool :=
  (typeID.isNone || typeID == some s.typeID) &&
  (breweryID.isNone || breweryID == some s.breweryID)

/-- WHERE clause of the `CountSakes` statement (textually the same predicates). -/
def countSakesWhere (typeID breweryID : Option Int) (s : SqlcSake) : Bool :=
  (typeID.isNone || typeID == some s.typeID) &&
  (breweryID.isNone || breweryID == some s.breweryID)

/-- Insert one row into a list kept in descending `created_at` order
(`ORDER BY s.created_at DESC`; ties in unspecified relative order). -/
def insertByCreatedAtDesc (s : SqlcSake) : List SqlcSake → List SqlcSake
  | [] => [s]
  | t :: ts =>
    if t.createdAt ≤ s.createdAt then s :: t :: ts
    else t :: insertByCreatedAtDesc s ts

/-- Sort a table page in descending `created_at` order. -/
def orderByCreatedAtDesc : List SqlcSake → List SqlcSake
  | [] => []
  | s :: ss => insertByCreatedAtDesc s (orderByCreatedAtDesc ss)

/-- The `ListSakes` statement: filter, order newest-first, then
`LIMIT $1 OFFSET $2` (offset applied before limit). -/
def ListSakesQuery (table : List SqlcSake) (arg : SqlcListSakesParams) : List SqlcSake :=
  (((orderByCreatedAtDesc (table.filter (listSakesWhere arg.typeID arg.breweryID))).drop
      arg.offset.toNat).take arg.limit.toNat)

/-- The `CountSakes` statement: `COUNT(*)` over the same filters. -/
def CountSakesQuery (table : List SqlcSake) (arg : CountSakesParams) : Int :=
  (table.filter (countSakesWhere arg.typeID arg.breweryID)).length

/-! ### Concrete sample data (used by closed witness/counterexample theorems) -/

/-- A concrete `sakes` row. -/
def demoRowC2 : SqlcSake :=
  { id := 1, typeID := 10, breweryID := 20, name := "獺祭",
    abv := { int := 1550, exp := -2, valid := true },
    tasteNotes := "華やか", memo := none, createdAt := 100, updatedAt := 200 }

/-- A store whose drink-styles lookup fails with the "no such row" sentinel
while everything else succeeds. -/
def queriesDrinkStylesNoRows : Queries :=
  { countSakes := fun _ => .ok 1,
    listSakes := fun _ => .ok [demoRowC2],
    getSakeType := fun _ => .ok { id := 10, name := "純米大吟醸", createdAt := 0, updatedAt := 0 },
    getBrewery := fun _ => .ok
      { id := 20, name := "旭酒造", originCountry := "日本", originRegion := some "山口県",
        position := .null, createdAt := 0, updatedAt := 0 },
    getDrinkStylesBySakeID := fun _ => .error .noRows }

/-- A store whose sake-type lookup fails with the "no such row" sentinel. -/
def queriesTypeNoRows : Queries :=
  { countSakes := fun _ => .ok 1,
    listSakes := fun _ => .ok [demoRowC2],
    getSakeType := fun _ => .error .noRows,
    getBrewery := fun _ => .ok
      { id := 20, name := "旭酒造", originCountry := "日本", originRegion := some "山口県",
        position := .null, createdAt := 0, updatedAt := 0 },
    getDrinkStylesBySakeID := fun _ => .ok [] }

/-- A store where every lookup succeeds and the page is empty. -/
def queriesEmptyPage : Queries :=
  { countSakes := fun _ => .ok 42,
    listSakes := fun _ => .ok [],
    getSakeType := fun _ => .ok { id := 10, name := "純米大吟醸", createdAt := 0, updatedAt := 0 },
    getBrewery := fun _ => .ok
      { id := 20, name := "旭酒造", originCountry := "日本", originRegion := some "山口県",
        position := .null, createdAt := 0, updatedAt := 0 },
    getDrinkStylesBySakeID := fun _ => .ok [] }

/-- A concrete `sakes` row with a memo, for the round-trip witness. -/
def demoRowC6 : SqlcSake :=
  { id := 7, typeID := 10, breweryID := 20, name := "獺祭 磨き二割三分",
    abv := { int := 1600, exp := -2, valid := true },
    tasteNotes := "フルーティー", memo := some "贈答用", createdAt := 300, updatedAt := 400 }

/-- A store where every lookup succeeds, the brewery has an origin region and
the sake has one associated drink style. -/
def queriesFullRow : Queries :=
  { countSakes := fun _ => .ok 1,
    listSakes := fun _ => .ok [demoRowC6],
    getSakeType := fun _ => .ok { id := 10, name := "純米大吟醸", createdAt := 0, updatedAt := 0 },
    getBrewery := fun _ => .ok
      { id := 20, name := "旭酒造", originCountry := "日本", originRegion := some "山口県",
        position := .point 34 132, createdAt := 0, updatedAt := 0 },
    getDrinkStylesBySakeID := fun _ => .ok
      [{ id := 3, name := "冷酒", description := some "冷やして", createdAt := 0, updatedAt := 0 }] }

/-- Two concrete rows with different filter columns, for the SQL-filter witness. -/
def demoRowC4a : SqlcSake :=
  { id := 1, typeID := 1, breweryID := 7, name := "a",
    abv := { int := 0, exp := 0, valid := true },
    tasteNotes := "", memo := none, createdAt := 2, updatedAt := 0 }

/-- A second concrete row whose `type_id` differs from `demoRowC4a`'s. -/
def demoRowC4b : SqlcSake :=
  { id := 2, typeID := 5, breweryID := 7, name := "b",
    abv := { int := 0, exp := 0, valid := true },
    tasteNotes := "", memo := none, createdAt := 1, updatedAt := 0 }

/-! ### Helper lemmas -/

/-- `Execute` is the repository call on the clamped filter, post-composed with
the output constructor. -/
theorem Execute_eq (repoList : ListSakesFilter → Except GoError (List Sake × Pagination))
    (input : ListSakesInput) :
    Execute repoList input =
      (repoList
          { typeID := input.typeID, breweryID := input.breweryID,
            offset := if input.offset < 0 then 0 else input.offset,
            limit := if input.limit < 1 ∨ input.limit > 100 then 20 else input.limit }).map
        (fun sp => { sakes := sp.1, pagination := sp.2 }) := by
  unfold Execute
  by_cases h1 : input.offset < 0 <;> by_cases h2 : input.limit < 1 ∨ input.limit > 100 <;>
    simp only [h1, h2, if_true, if_false, ite_true, ite_false] <;>
    (cases repoList _ with
     | error e => rfl
     | ok sp => cases sp; rfl)

/-- The first hydration failure in a page makes the whole conversion loop fail. -/
theorem hydrateRows_error_of_mem (q : Queries) (rows : List SqlcSake) (row : SqlcSake)
    (hmem : row ∈ rows) (e : GoError) (herr : toSakeEntity q row = .error e) :
    ∃ e', hydrateRows q rows = .error e' := by
  induction rows with
  | nil => cases hmem
  | cons r rs ih =>
    cases hr : toSakeEntity q r with
    | error e' => exact ⟨e', by simp [hydrateRows, hr]⟩
    | ok sake =>
      rcases List.mem_cons.mp hmem with h | h
      · subst h; simp [herr] at hr
      · obtain ⟨e', he'⟩ := ih h
        exact ⟨e', by simp [hydrateRows, hr, he']⟩

/-- Membership is preserved by the ordered insertion step. -/
theorem mem_insertByCreatedAtDesc {a s : SqlcSake} {l : List SqlcSake} :
    a ∈ insertByCreatedAtDesc s l ↔ a = s ∨ a ∈ l := by
  induction l with
  | nil => simp [insertByCreatedAtDesc]
  | cons t ts ih =>
    unfold insertByCreatedAtDesc
    split
    · simp [List.mem_cons]
    · simp only [List.mem_cons, ih]
      tauto

/-- Membership is preserved by the `ORDER BY created_at DESC` sort. -/
theorem mem_orderByCreatedAtDesc {a : SqlcSake} {l : List SqlcSake} :
    a ∈ orderByCreatedAtDesc l ↔ a ∈ l := by
  induction l with
  | nil => simp [orderByCreatedAtDesc]
  | cons s ss ih =>
    simp only [orderByCreatedAtDesc, mem_insertByCreatedAtDesc, ih, List.mem_cons]

set_option maxHeartbeats 1600000 in
/-- `validateListSakesParams` returns exactly the accumulated field errors of
the four independent rules, in declaration order, iff at least one rule failed. -/
theorem validateListSakesParams_eq (params : ListSakesParams) :
    validateListSakesParams params =
      (match (match params.offset with
            | some o => if o < 0 then [("offset", "オフセットは0以上である必要があります")] else []
            | none => []) ++
           (match params.limit with
            | some l => if l < 1 ∨ 100 < l then [("limit", "取得件数は1以上100以下である必要があります")] else []
            | none => []) ++
           (match params.typeId with
            | some t => if t < 1 then [("type_id", "酒の種類IDは1以上である必要があります")] else []
            | none => []) ++
           (match params.breweryId with
            | some b => if b < 1 then [("brewery_id", "酒造IDは1以上である必要があります")] else []
            | none => []) with
       | [] => none
       | f :: fs => some
        { appError := { code := "VALIDATION_ERROR", message := "リクエストパラメータが不正です",
                        status := 400, err := none },
          fields := f :: fs }) := by
  obtain ⟨t, b, o, l⟩ := params
  cases o <;> cases l <;> cases t <;> cases b <;>
    (simp only [validateListSakesParams, NewValidationError, ValidationError.AddField,
      ValidationError.HasErrors, validatorVarMin, validatorVarMinMax,
      decide_eq_true_eq, Bool.and_eq_true]
     split_ifs <;> first | (exfalso; omega) | rfl | simp_all | (simp_all; omega))

/-! ### Claim theorems -/

/-- C9: the geometry-to-coordinate extraction is a stub: for every stored
brewery geometry value, including a present point, it yields absent latitude
and absent longitude. -/
theorem extractCoordinates_always_absent (geomData : PgGeometry) :
    extractCoordinates geomData = (none, none) :=
  rfl

/-- C1: `Execute` calls the repository on a filter whose offset is 0 when the
input offset is negative and unchanged when it is in range, and whose limit is
20 when the input limit is outside [1,100] and unchanged when in range; the
result is exactly the repository's result, so clamping never produces an
error (errors occur only when the repository errs). -/
theorem usecase_execute_clamps_pagination
    (repoList : ListSakesFilter → Except GoError (List Sake × Pagination))
    (input : ListSakesInput) :
    ∃ f : ListSakesFilter,
      Execute repoList input =
        (repoList f).map (fun sp => { sakes := sp.1, pagination := sp.2 }) ∧
      (input.offset < 0 → f.offset = 0) ∧
      (0 ≤ input.offset → f.offset = input.offset) ∧
      ((input.limit < 1 ∨ 100 < input.limit) → f.limit = 20) ∧
      (1 ≤ input.limit → input.limit ≤ 100 → f.limit = input.limit) ∧
      (∀ e, repoList f = .error e → Execute repoList input = .error e) ∧
      (∀ sakes pagination, repoList f = .ok (sakes, pagination) →
        Execute repoList input = .ok { sakes := sakes, pagination := pagination }) := by
  refine ⟨{ typeID := input.typeID, breweryID := input.breweryID,
            offset := if input.offset < 0 then 0 else input.offset,
            limit := if input.limit < 1 ∨ input.limit > 100 then 20 else input.limit },
          Execute_eq repoList input, ?_, ?_, ?_, ?_, ?_, ?_⟩
  · intro h; simp only [if_pos h]
  · intro h; simp only [gt_iff_lt]; rw [if_neg (by omega)]
  · intro h; simp only [gt_iff_lt]; rw [if_pos (by omega)]
  · intro h1 h2; simp only [gt_iff_lt]; rw [if_neg (by omega)]
  · intro e he; rw [Execute_eq repoList input, he]; rfl
  · intro sakes pagination h; rw [Execute_eq repoList input, h]; rfl

/-- Witness for C1: with an echoing repository, input offset -5 and limit 200
reach the repository as offset 0 and limit 20, with no error. -/
theorem usecase_execute_clamps_pagination_witness :
    Execute (fun g => .ok ([], { total := 0, offset := g.offset, limit := g.limit }))
        { typeID := none, breweryID := none, offset := -5, limit := 200 } =
      .ok { sakes := [], pagination := { total := 0, offset := 0, limit := 20 } } := by
  obtain ⟨f, h1, h2, h3, h4, h5, h6, h7⟩ :=
    usecase_execute_clamps_pagination
      (fun g => .ok ([], { total := 0, offset := g.offset, limit := g.limit }))
      { typeID := none, breweryID := none, offset := -5, limit := 200 }
  have ho : f.offset = 0 := h2 (by norm_num)
  have hl : f.limit = 20 := h4 (by norm_num)
  have := h7 [] { total := 0, offset := f.offset, limit := f.limit } rfl
  rw [this, ho, hl]

/-- C8: whenever the repository's `List` returns an error for the filter
`Execute` passes it, `Execute` returns exactly that error value, untouched. -/
theorem usecase_propagates_repo_error
    (repoList : ListSakesFilter → Except GoError (List Sake × Pagination))
    (input : ListSakesInput) :
    ∃ f : ListSakesFilter, ∀ e : GoError,
      repoList f = .error e → Execute repoList input = .error e := by
  refine ⟨{ typeID := input.typeID, breweryID := input.breweryID,
            offset := if input.offset < 0 then 0 else input.offset,
            limit := if input.limit < 1 ∨ input.limit > 100 then 20 else input.limit },
          fun e he => ?_⟩
  rw [Execute_eq repoList input, he]; rfl

/-- Witness for C8: a repository failing with a concrete database error makes
`Execute` return that very error. -/
theorem usecase_propagates_repo_error_witness :
    Execute (fun _ => .error (.app (DatabaseError "酒一覧の取得に失敗しました" (.otherErr "timeout"))))
        { typeID := some 1, breweryID := none, offset := 0, limit := 20 } =
      .error (.app (DatabaseError "酒一覧の取得に失敗しました" (.otherErr "timeout"))) := by
  obtain ⟨f, h⟩ :=
    usecase_propagates_repo_error
      (fun _ => .error (.app (DatabaseError "酒一覧の取得に失敗しました" (.otherErr "timeout"))))
      { typeID := some 1, breweryID := none, offset := 0, limit := 20 }
  exact h _ rfl

/-- C10: `Execute` forwards the type-id and brewery-id filter fields to the
repository exactly as received (absent stays absent, present keeps its value,
whatever it is); only offset and limit are normalized. -/
theorem usecase_forwards_filter_ids
    (repoList : ListSakesFilter → Except GoError (List Sake × Pagination))
    (input : ListSakesInput) :
    ∃ f : ListSakesFilter,
      Execute repoList input =
        (repoList f).map (fun sp => { sakes := sp.1, pagination := sp.2 }) ∧
      f.typeID = input.typeID ∧ f.breweryID = input.breweryID :=
  ⟨_, Execute_eq repoList input, rfl, rfl⟩

/-- C5: on every successful `List`, the returned `Pagination` carries exactly
the count-query result as `Total` (independent of the page contents) and
echoes the filter's offset and limit; `toListSakesResponse` copies these
values field-by-field into the response's meta block. -/
theorem list_pagination_echoes_count_and_filter
    (q : Queries) (filter : ListSakesFilter) (sakes : List Sake) (p : Pagination)
    (h : sakeRepositoryList q filter = .ok (sakes, p)) :
    q.countSakes { typeID := filter.typeID, breweryID := filter.breweryID } = .ok p.total ∧
    p.offset = filter.offset ∧ p.limit = filter.limit ∧
    (toListSakesResponse { sakes := sakes, pagination := p }).meta =
      some { total := p.total, offset := p.offset, limit := p.limit } := by
  cases hc : q.countSakes { typeID := filter.typeID, breweryID := filter.breweryID } with
  | error e => simp [sakeRepositoryList, hc] at h
  | ok total =>
    cases hl : q.listSakes
        { limit := filter.limit, offset := filter.offset,
          typeID := filter.typeID, breweryID := filter.breweryID } with
    | error e => simp [sakeRepositoryList, hc, hl] at h
    | ok rows =>
      cases hh : hydrateRows q rows with
      | error e => simp [sakeRepositoryList, hc, hl, hh] at h
      | ok sks =>
        simp only [sakeRepositoryList, hc, hl, hh, Except.ok.injEq, Prod.mk.injEq] at h
        obtain ⟨h1, h2⟩ := h
        subst h2
        exact ⟨rfl, rfl, rfl, rfl⟩

/-- Witness for C5: an all-succeeding store with count 42 and an empty page,
called at offset 5 / limit 10, yields total 42, offset 5, limit 10, copied
into the meta block. -/
theorem list_pagination_echoes_count_and_filter_witness :
    queriesEmptyPage.countSakes { typeID := some 1, breweryID := none } = .ok (42 : Int) ∧
    (5 : Int) = 5 ∧ (10 : Int) = 10 ∧
    (toListSakesResponse
        { sakes := [], pagination := { total := 42, offset := 5, limit := 10 } }).meta =
      some { total := 42, offset := 5, limit := 10 } :=
  list_pagination_echoes_count_and_filter queriesEmptyPage
    { typeID := some 1, breweryID := none, offset := 5, limit := 10 }
    [] { total := 42, offset := 5, limit := 10 } rfl

/-- C4: the count query and the page query apply the same optional-equality
predicates; an absent filter is a tautology (every row passes, whatever that
column holds) and a present filter passes exactly the rows whose column equals
the requested id; every row of a returned page satisfies the predicate. -/
theorem sql_filters_optional_equality :
    (∀ tid bid (s : SqlcSake), countSakesWhere tid bid s = listSakesWhere tid bid s) ∧
    (∀ s : SqlcSake, listSakesWhere none none s = true) ∧
    (∀ x bid (s : SqlcSake),
      listSakesWhere (some x) bid s = (decide (s.typeID = x) && listSakesWhere none bid s)) ∧
    (∀ y tid (s : SqlcSake),
      listSakesWhere tid (some y) s = (listSakesWhere tid none s && decide (s.breweryID = y))) ∧
    (∀ table arg, CountSakesQuery table arg =
      ((table.filter (countSakesWhere arg.typeID arg.breweryID)).length : Int)) ∧
    (∀ table arg s, s ∈ ListSakesQuery table arg →
      listSakesWhere arg.typeID arg.breweryID s = true) := by
  refine ⟨fun tid bid s => rfl, fun s => rfl, ?_, ?_, fun table arg => rfl, ?_⟩
  · intro x bid s
    unfold listSakesWhere
    by_cases h : s.typeID = x
    · simp [h]
    · simp [h, Ne.symm h]
  · intro y tid s
    unfold listSakesWhere
    by_cases h : s.breweryID = y
    · simp [h]
    · simp [h, Ne.symm h]
  · intro table arg s hmem
    unfold ListSakesQuery at hmem
    have h1 := List.mem_of_mem_take hmem
    have h2 := List.mem_of_mem_drop h1
    have h3 := mem_orderByCreatedAtDesc.mp h2
    exact (List.mem_filter.mp h3).2

/-- Witness for C4: in a two-row table, filtering by brewery id 7 returns a
page whose rows all satisfy the predicate. -/
theorem sql_filters_optional_equality_witness :
    listSakesWhere none (some 7) demoRowC4a = true :=
  sql_filters_optional_equality.2.2.2.2.2
    [demoRowC4a, demoRowC4b]
    { limit := 10, offset := 0, typeID := none, breweryID := some 7 }
    demoRowC4a (by decide)

/-- C6: for a row whose lookups succeed, whose brewery has an origin region
and which has at least one associated drink style, hydrating to the domain
entity and rendering to the wire shape preserves name, abv (exactly, in the
exact-rational model — hence in particular to 2 decimal places), taste notes,
memo presence/absence and value, and the ordered drink-style collection. -/
theorem sake_roundtrip_preserves
    (q : Queries) (row : SqlcSake) (st : SqlcSakeType) (b : SqlcBrewery)
    (reg : String) (styles : List SqlcDrinkStyle)
    (hst : q.getSakeType row.typeID = .ok st)
    (hb : q.getBrewery row.breweryID = .ok b)
    (hreg : b.originRegion = some reg)
    (hds : q.getDrinkStylesBySakeID row.id = .ok styles)
    (hne : styles ≠ [])
    (hvalid : row.abv.valid = true) :
    ∃ sake : Sake, toSakeEntity q row = .ok sake ∧
      (toSakeResponse sake).name = row.name ∧
      (toSakeResponse sake).abv = row.abv.Float64Value.float64 ∧
      (toSakeResponse sake).tasteNotes = row.tasteNotes ∧
      (toSakeResponse sake).memo = row.memo ∧
      (toSakeResponse sake).drinkStyles =
        styles.map (fun ds => { id := ds.id, name := ds.name, description := ds.description }) ∧
      (toSakeResponse sake).brewery.originRegion = some reg ∧
      (toSakeResponse sake).drinkStyles ≠ [] := by
  have hent : toSakeEntity q row = .ok
      { id := row.id, type := { id := st.id, name := st.name },
        brewery :=
          { id := b.id, name := b.name, originCountry := b.originCountry,
            originRegion := b.originRegion,
            latitude := (extractCoordinates b.position).1,
            longitude := (extractCoordinates b.position).2 },
        name := row.name, abv := convertNumericToFloat32 row.abv,
        tasteNotes := row.tasteNotes, memo := row.memo,
        drinkStyles := styles.map (fun ds =>
          { id := ds.id, name := ds.name, description := ds.description }),
        createdAt := row.createdAt, updatedAt := row.updatedAt } := by
    simp only [toSakeEntity, hst, hb, hds]
  refine ⟨_, hent, ?_, ?_, ?_, ?_, ?_, ?_, ?_⟩
  · rfl
  · simp [toSakeResponse, convertNumericToFloat32, PgNumeric.Float64Value, hvalid]
  · rfl
  · rfl
  · simp only [toSakeResponse, List.map_map]
    rfl
  · simp [toSakeResponse, hreg]
  · simp only [toSakeResponse, List.map_map]
    intro hcontra
    exact hne (List.map_eq_nil_iff.mp hcontra)

/-- Witness for C6: a concrete row with abv 16.00, a memo, an origin region
and one drink style renders with all fields preserved. -/
theorem sake_roundtrip_preserves_witness :
    ∃ sake : Sake, toSakeEntity queriesFullRow demoRowC6 = .ok sake ∧
      (toSakeResponse sake).name = "獺祭 磨き二割三分" ∧
      (toSakeResponse sake).abv = 16 ∧
      (toSakeResponse sake).memo = some "贈答用" ∧
      (toSakeResponse sake).drinkStyles =
        [{ id := 3, name := "冷酒", description := some "冷やして" }] := by
  obtain ⟨sake, h1, h2, h3, h4, h5, h6, h7, h8⟩ :=
    sake_roundtrip_preserves queriesFullRow demoRowC6
      { id := 10, name := "純米大吟醸", createdAt := 0, updatedAt := 0 }
      { id := 20, name := "旭酒造", originCountry := "日本", originRegion := some "山口県",
        position := .point 34 132, createdAt := 0, updatedAt := 0 }
      "山口県"
      [{ id := 3, name := "冷酒", description := some "冷やして", createdAt := 0, updatedAt := 0 }]
      rfl rfl rfl rfl (by decide) rfl
  refine ⟨sake, h1, by rw [h2]; rfl, ?_, by rw [h5]; rfl, by rw [h6]; rfl⟩
  rw [h3]
  norm_num [demoRowC6, PgNumeric.Float64Value]
  rw [show Int.toNat 2 = 2 from rfl]
  norm_num

/-- Counterexample to C2 as stated: when the drink-styles lookup fails with
the "no such row" store error, `List` returns a DATABASE_ERROR-kind error, not
a NotFound-kind one — the `pgx.ErrNoRows` special case is applied only to the
SakeType and Brewery lookups. -/
theorem hydration_drinkstyles_norows_not_notfound :
    sakeRepositoryList queriesDrinkStylesNoRows
        { typeID := none, breweryID := none, offset := 0, limit := 20 } =
      .error (.app (DatabaseError "飲み方取得に失敗しました" StoreErr.noRows)) ∧
    (DatabaseError "飲み方取得に失敗しました" StoreErr.noRows).code ≠ "NOT_FOUND" :=
  ⟨rfl, by decide⟩

/-- C2 (amended): a hydration-lookup failure on any row makes `List` return an
error and no rows at all; a SakeType or Brewery lookup failing with "no such
row" yields a NotFound-kind error, while any other SakeType/Brewery failure
and every DrinkStyles lookup failure (a "no such row" one included) yields a
DatabaseError-kind error wrapping the underlying cause; the two kinds are
distinct. -/
theorem hydration_failure_aborts_and_classifies :
    (∀ q filter rows,
      q.listSakes
          { limit := ListSakesFilter.limit filter, offset := ListSakesFilter.offset filter,
            typeID := ListSakesFilter.typeID filter,
            breweryID := ListSakesFilter.breweryID filter } = .ok rows →
      (∃ row ∈ rows, ∃ e, toSakeEntity q row = .error e) →
      ∃ e, sakeRepositoryList q filter = .error e) ∧
    (∀ q row, Queries.getSakeType q (SqlcSake.typeID row) = .error .noRows →
      toSakeEntity q row = .error (.app (NotFoundError "酒の種類が見つかりません"))) ∧
    (∀ q row m, Queries.getSakeType q (SqlcSake.typeID row) = .error (.otherErr m) →
      toSakeEntity q row = .error (.app (DatabaseError "酒の種類取得に失敗しました" (.otherErr m)))) ∧
    (∀ q row st, Queries.getSakeType q (SqlcSake.typeID row) = .ok st →
      Queries.getBrewery q (SqlcSake.breweryID row) = .error .noRows →
      toSakeEntity q row = .error (.app (NotFoundError "酒造が見つかりません"))) ∧
    (∀ q row st m, Queries.getSakeType q (SqlcSake.typeID row) = .ok st →
      Queries.getBrewery q (SqlcSake.breweryID row) = .error (.otherErr m) →
      toSakeEntity q row = .error (.app (DatabaseError "酒造取得に失敗しました" (.otherErr m)))) ∧
    (∀ q row st b e, Queries.getSakeType q (SqlcSake.typeID row) = .ok st →
      Queries.getBrewery q (SqlcSake.breweryID row) = .ok b →
      Queries.getDrinkStylesBySakeID q (SqlcSake.id row) = .error e →
      toSakeEntity q row = .error (.app (DatabaseError "飲み方取得に失敗しました" e))) ∧
    (∀ m m' e, (NotFoundError m).code ≠ (DatabaseError m' e).code) ∧
    (∀ m' e, (DatabaseError m' e).err = some e) := by
  refine ⟨?_, ?_, ?_, ?_, ?_, ?_, ?_, ?_⟩
  · intro q filter rows hl hex
    obtain ⟨row, hmem, e, he⟩ := hex
    cases hc : q.countSakes { typeID := filter.typeID, breweryID := filter.breweryID } with
    | error err =>
      exact ⟨.app (DatabaseError "酒の件数取得に失敗しました" err),
        by simp [sakeRepositoryList, hc]⟩
    | ok total =>
      obtain ⟨e', he'⟩ := hydrateRows_error_of_mem q rows row hmem e he
      exact ⟨e', by simp [sakeRepositoryList, hc, hl, he']⟩
  · intro q row h
    simp [toSakeEntity, h]
  · intro q row m h
    simp [toSakeEntity, h]
  · intro q row st h1 h2
    simp [toSakeEntity, h1, h2]
  · intro q row st m h1 h2
    simp [toSakeEntity, h1, h2]
  · intro q row st b e h1 h2 h3
    simp [toSakeEntity, h1, h2, h3]
  · intro m m' e
    simp [NotFoundError, DatabaseError]
  · intro m' e
    rfl

/-- Witness for C2 (amended): a sake-type lookup failing with "no such row"
yields the NotFound-kind error on a concrete store and row. -/
theorem hydration_failure_aborts_and_classifies_witness :
    toSakeEntity queriesTypeNoRows demoRowC2 =
      .error (.app (NotFoundError "酒の種類が見つかりません")) :=
  hydration_failure_aborts_and_classifies.2.1 queriesTypeNoRows demoRowC2 rfl

/-- C3: when at least one of the four parameter rules fails, all four rules
are still checked (the accumulated field list contains one entry per failed
field, in declaration order), the handler responds with a 400 validation-error
carrying one message per failed field, and the use case is never invoked. -/
theorem handler_validation_accumulates_and_blocks
    (uc : ListSakesInput → Except GoError ListSakesOutput) (params : ListSakesParams)
    (hfail : (∃ o, params.offset = some o ∧ o < 0) ∨
             (∃ l, params.limit = some l ∧ (l < 1 ∨ 100 < l)) ∨
             (∃ t, params.typeId = some t ∧ t < 1) ∨
             (∃ b, params.breweryId = some b ∧ b < 1)) :
    ∃ v : ValidationError,
      validateListSakesParams params = some v ∧
      v.fields =
        (match params.offset with
         | some o => if o < 0 then [("offset", "オフセットは0以上である必要があります")] else []
         | none => []) ++
        (match params.limit with
         | some l => if l < 1 ∨ 100 < l then [("limit", "取得件数は1以上100以下である必要があります")] else []
         | none => []) ++
        (match params.typeId with
         | some t => if t < 1 then [("type_id", "酒の種類IDは1以上である必要があります")] else []
         | none => []) ++
        (match params.breweryId with
         | some b => if b < 1 then [("brewery_id", "酒造IDは1以上である必要があります")] else []
         | none => []) ∧
      ListSakes uc params =
        (HttpResponse.errJson 400
          { data := none,
            errors := some (v.fields.map fun fm =>
              { code := "VALIDATION_ERROR", message := fm.1 ++ ": " ++ fm.2 }) }, []) := by
  have heq := validateListSakesParams_eq params
  cases hF : (match params.offset with
         | some o => if o < 0 then [("offset", "オフセットは0以上である必要があります")] else []
         | none => []) ++
        (match params.limit with
         | some l => if l < 1 ∨ 100 < l then [("limit", "取得件数は1以上100以下である必要があります")] else []
         | none => []) ++
        (match params.typeId with
         | some t => if t < 1 then [("type_id", "酒の種類IDは1以上である必要があります")] else []
         | none => []) ++
        (match params.breweryId with
         | some b => if b < 1 then [("brewery_id", "酒造IDは1以上である必要があります")] else []
         | none => []) with
  | nil =>
    exfalso
    rw [List.append_eq_nil, List.append_eq_nil, List.append_eq_nil] at hF
    obtain ⟨⟨⟨hA, hB⟩, hC⟩, hD⟩ := hF
    rcases hfail with ⟨o, ho, h⟩ | ⟨l, hl, h⟩ | ⟨t, ht, h⟩ | ⟨b, hb, h⟩
    · simp [ho, h] at hA
    · simp [hl, h] at hB
    · simp [ht, h] at hC
    · simp [hb, h] at hD
  | cons f fs =>
    simp only [hF] at heq
    refine ⟨{ appError := { code := "VALIDATION_ERROR", message := "リクエストパラメータが不正です",
                            status := 400, err := none },
              fields := f :: fs }, heq, rfl, ?_⟩
    simp only [ListSakes, heq, handleError]

/-- Witness for C3: offset -1 and limit 101 together produce a 400
validation-error carrying both field messages, and the use case is not
invoked (empty call log). -/
theorem handler_validation_accumulates_and_blocks_witness :
    ListSakes (fun _ => .ok { sakes := [], pagination := { total := 0, offset := 0, limit := 0 } })
        { typeId := none, breweryId := none, offset := some (-1), limit := some 101 } =
      (HttpResponse.errJson 400
        { data := none,
          errors := some
            [{ code := "VALIDATION_ERROR", message := "offset: オフセットは0以上である必要があります" },
             { code := "VALIDATION_ERROR", message := "limit: 取得件数は1以上100以下である必要があります" }] },
       []) := by
  obtain ⟨v, hv, hf, hresp⟩ :=
    handler_validation_accumulates_and_blocks
      (fun _ => .ok { sakes := [], pagination := { total := 0, offset := 0, limit := 0 } })
      { typeId := none, breweryId := none, offset := some (-1), limit := some 101 }
      (Or.inl ⟨-1, rfl, by norm_num⟩)
  rw [hresp, hf]
  rfl

/-- C7: when validation passes, the handler invokes the use case exactly once,
with offset 0 when the offset parameter is absent and limit 20 when the limit
parameter is absent, and with the given values when present; the type-id and
brewery-id parameters are passed along as bound. -/
theorem handler_applies_wire_defaults
    (uc : ListSakesInput → Except GoError ListSakesOutput) (params : ListSakesParams)
    (hok : validateListSakesParams params = none) :
    ∃ input : ListSakesInput,
      (ListSakes uc params).2 = [input] ∧
      input.typeID = params.typeId ∧
      input.breweryID = params.breweryId ∧
      (params.offset = none → input.offset = 0) ∧
      (∀ o, params.offset = some o → input.offset = o) ∧
      (params.limit = none → input.limit = 20) ∧
      (∀ l, params.limit = some l → input.limit = l) := by
  refine ⟨{ typeID := params.typeId, breweryID := params.breweryId,
            offset := match params.offset with | some o => o | none => 0,
            limit := match params.limit with | some l => l | none => 20 },
          ?_, rfl, rfl, ?_, ?_, ?_, ?_⟩
  · simp only [ListSakes, hok]
    split <;> rfl
  · intro h; rw [h]
  · intro o h; rw [h]
  · intro h; rw [h]
  · intro l h; rw [h]

/-- Witness for C7: a request with no parameters at all reaches the use case
as offset 0 and limit 20, with both filters absent. -/
theorem handler_applies_wire_defaults_witness :
    (ListSakes (fun _ => .ok { sakes := [], pagination := { total := 0, offset := 0, limit := 0 } })
        { typeId := none, breweryId := none, offset := none, limit := none }).2 =
      [{ typeID := none, breweryID := none, offset := 0, limit := 20 }] := by
  obtain ⟨input, h1, h2, h3, h4, _, h6, _⟩ :=
    handler_applies_wire_defaults
      (fun _ => .ok { sakes := [], pagination := { total := 0, offset := 0, limit := 0 } })
      { typeId := none, breweryId := none, offset := none, limit := none } rfl
  rw [h1]
  obtain ⟨a, b, c, d⟩ := input
  simp only at h2 h3
  rw [h2, h3, show c = 0 from h4 rfl, show d = 20 from h6 rfl]

end SakeHack
